import Mathlib

/-!
Shallow embedding of the `ExecuteTaskSolutionCapability` move-group capability
(`src/capabilities/src/execute_task_solution_capability.cpp`).

The embedding follows the source file: `findJointModelGroup` resolves an
actuator group for a set of joint names, `constructMotionPlan` builds one
executable segment per sub-trajectory while threading a running robot state,
and `execCallback` is rendered as a trace-producing function
`execCallbackTrace` whose events record, in order, the plan handed to the
execution engine, every feedback message and planning-scene submission made by
the per-segment completion effects, and the single terminal action-server
result.  External collaborators (the kinematic model, `moveit::core::isEmpty`,
`robotStateMsgToRobotState`, `newPlanningSceneMessage`, and the
`executeAndMonitor` engine) are modelled as explicit data or function
parameters.
-/

/-- Flags of a joint in the kinematic model, as queried by the capability:
`isPassive()`, `getMimic() != nullptr`, and `getType() == JointModel::FIXED`. -/
structure JointModelInfo where
  passive : Bool
  mimic : Bool
  fixed : Bool
deriving DecidableEq

/-- A joint model group: its name and its joint names (`getJointModelNames()`). -/
structure JointModelGroup where
  name : String
  jointNames : List String
deriving DecidableEq

/-- The kinematic-model collaborator: the registered groups in model-registration
order (`getJointModelGroups()`) and the per-joint flags (`getJointModel(name)`). -/
structure RobotModel where
  groups : List JointModelGroup
  jointInfo : String → JointModelInfo

/-- Fields of `sensor_msgs::JointState` read by the core (emptiness looks only at
`name`; a default-constructed message has all fields empty). -/
structure JointStateMsg where
  name : List String
  position : List Int
deriving DecidableEq

/-- The default-constructed `sensor_msgs::JointState()`. -/
def JointStateMsg.empty : JointStateMsg := { name := [], position := [] }

/-- Fields of `sensor_msgs::MultiDOFJointState` read by the core. -/
structure MultiDOFJointStateMsg where
  joint_names : List String
deriving DecidableEq

/-- The default-constructed `sensor_msgs::MultiDOFJointState()`. -/
def MultiDOFJointStateMsg.empty : MultiDOFJointStateMsg := { joint_names := [] }

/-- Fields of `moveit_msgs::RobotState` read by the core and by
`moveit::core::isEmpty`. -/
structure RobotStateMsg where
  joint_state : JointStateMsg
  multi_dof_joint_state : MultiDOFJointStateMsg
  attached_collision_objects : List String
  is_diff : Bool
deriving DecidableEq

/-- Fields of `moveit_msgs::PlanningScene` inspected by
`moveit::core::isEmpty`; payloads that the core never reads elementwise are
kept as opaque lists. -/
structure PlanningSceneMsg where
  name : String
  robot_state : RobotStateMsg
  fixed_frame_transforms : List String
  allowed_collision_matrix_entry_names : List String
  link_padding : List String
  link_scale : List String
  object_colors : List String
  world_collision_objects : List String
  world_octomap_data : List Int
deriving DecidableEq

/-- The joint names of a `moveit_msgs::RobotTrajectory`:
`joint_trajectory.joint_names` and `multi_dof_joint_trajectory.joint_names`. -/
structure RobotTrajectoryMsg where
  joint_names : List String
  multi_dof_joint_names : List String
deriving DecidableEq

/-- One `moveit_task_constructor_msgs::SubTrajectory` of the goal's solution. -/
structure SubTrajectory where
  trajectory : RobotTrajectoryMsg
  scene_diff : PlanningSceneMsg
  controller_names : List String
deriving DecidableEq

/-- Model of the external collaborator `moveit::core::isEmpty(RobotState)`:
a robot state message is empty when it is a diff carrying no joint names and
no attached collision objects. -/
def isEmptyRobotState (m : RobotStateMsg) : Bool :=
  m.is_diff && m.multi_dof_joint_state.joint_names.isEmpty
    && m.joint_state.name.isEmpty && m.attached_collision_objects.isEmpty

/-- Model of the external collaborator `moveit::core::isEmpty(PlanningScene)`:
every scene component is empty and the robot state is empty. -/
def isEmptyScene (m : PlanningSceneMsg) : Bool :=
  m.name.isEmpty && m.fixed_frame_transforms.isEmpty
    && m.allowed_collision_matrix_entry_names.isEmpty
    && m.link_padding.isEmpty && m.link_scale.isEmpty && m.object_colors.isEmpty
    && isEmptyRobotState m.robot_state
    && m.world_collision_objects.isEmpty && m.world_octomap_data.isEmpty

/-- Whether a joint outside the requested set is tolerated inside a candidate
group: `isPassive() || getMimic() || getType() == FIXED` in the source. -/
def acceptableJoint (model : RobotModel) (j : String) : Bool :=
  (model.jointInfo j).passive || (model.jointInfo j).mimic || (model.jointInfo j).fixed

/-- The per-group test of `findJointModelGroup`: the group's joints include the
requested set, and every joint in the difference is acceptable. -/
def groupMatches (model : RobotModel) (joints : List String) (jmg : JointModelGroup) : Bool :=
  joints.all (fun j => decide (j ∈ jmg.jointNames))
    && (jmg.jointNames.filter (fun j => !decide (j ∈ joints))).all (acceptableJoint model)

/-- `findJointModelGroup` of the source: scan the registered groups in order and
return the first whose joint set includes the requested joints with only
passive, fixed or mimic joints left over; `none` when no group matches. -/
def findJointModelGroup (model : RobotModel) (joints : List String) : Option JointModelGroup :=
  model.groups.find? (groupMatches model joints)

namespace MoveItErrorCodes

/-- `moveit_msgs::MoveItErrorCodes::SUCCESS`. -/
def SUCCESS : Int := 1

/-- `moveit_msgs::MoveItErrorCodes::FAILURE`. -/
def FAILURE : Int := 99999

/-- `moveit_msgs::MoveItErrorCodes::PLANNING_FAILED`. -/
def PLANNING_FAILED : Int := -1

/-- `moveit_msgs::MoveItErrorCodes::INVALID_MOTION_PLAN`. -/
def INVALID_MOTION_PLAN : Int := -2

/-- `moveit_msgs::MoveItErrorCodes::CONTROL_FAILED`. -/
def CONTROL_FAILED : Int := -4

/-- `moveit_msgs::MoveItErrorCodes::TIMED_OUT`. -/
def TIMED_OUT : Int := -6

/-- `moveit_msgs::MoveItErrorCodes::PREEMPTED`. -/
def PREEMPTED : Int := -7

end MoveItErrorCodes

/-- Model of the external collaborator `moveit::core::MoveItErrorCode::toString`:
a human-readable name for each error code, never the empty string. -/
def errorCodeToString (c : Int) : String :=
  if c = MoveItErrorCodes.SUCCESS then "SUCCESS"
  else if c = MoveItErrorCodes.FAILURE then "FAILURE"
  else if c = MoveItErrorCodes.PLANNING_FAILED then "PLANNING_FAILED"
  else if c = MoveItErrorCodes.INVALID_MOTION_PLAN then "INVALID_MOTION_PLAN"
  else if c = MoveItErrorCodes.CONTROL_FAILED then "CONTROL_FAILED"
  else if c = MoveItErrorCodes.TIMED_OUT then "TIMED_OUT"
  else if c = MoveItErrorCodes.PREEMPTED then "PREEMPTED"
  else "UNKNOWN_ERROR_CODE"

/-- The response string of the branch rejecting goals while trajectory
execution is disabled. -/
def disabledResponse : String :=
  "Cannot execute solution. ~allow_trajectory_execution was set to false"

/-- The build error logged when no joint model group actuates the requested
joints, with the joint names joined by a comma (`rcpputils::join`). -/
def unresolvableGroupError (joint_names : List String) : String :=
  "Could not find JointModelGroup that actuates \x7b"
    ++ String.intercalate ", " joint_names ++ "\x7d"

/-- The build error logged when a scene diff's robot state cannot be applied
to the running state. -/
def invalidStateError (description : String) : String :=
  "invalid intermediate robot state in scene diff of SubTrajectory " ++ description

/-- The position label of segment `i` (0-based) of `N`: `"i+1/N"`. -/
def segmentDescription (i N : Nat) : String :=
  toString (i + 1) ++ "/" ++ toString N

/-- One `plan_execution::ExecutableTrajectory` as filled in by
`constructMotionPlan`: the label, the trajectory message and the running state
it was bound to, the resolved group (`none` = unconstrained), the controllers,
and the data captured by the `effect_on_success_` closure (the segment's scene
diff, its index `i` and the total count). `ρ` is the opaque type of the
collaborator-owned `moveit::core::RobotState`. -/
structure ExecutableTrajectory (ρ : Type) where
  description : String
  trajectoryMsg : RobotTrajectoryMsg
  seedState : ρ
  group : Option JointModelGroup
  controller_names : List String
  effectDiff : PlanningSceneMsg
  effectSubId : Nat
  effectSubNo : Nat

/-- The union of single-DOF and multi-DOF joint names of a sub-trajectory, in
the order the source concatenates them. -/
def jointNamesOf (st : SubTrajectory) : List String :=
  st.trajectory.joint_names ++ st.trajectory.multi_dof_joint_names

/-- The group-resolution step of `constructMotionPlan`'s loop: an empty
joint-name union skips resolution and leaves the segment unconstrained; a
non-empty union is resolved through `findJointModelGroup`, and a failed
resolution is a fatal build error naming the joints. -/
def resolveGroup (model : RobotModel) (joint_names : List String) :
    Except String (Option JointModelGroup) :=
  if joint_names.isEmpty then Except.ok none
  else
    match findJointModelGroup model joint_names with
    | none => Except.error (unresolvableGroupError joint_names)
    | some g => Except.ok (some g)

/-- The body of `constructMotionPlan`'s loop that fills one
`ExecutableTrajectory`: resolve a group for the sub-trajectory's joint names
and record the label, trajectory, controllers and the closure-captured effect
data. -/
def buildSegment {ρ : Type} (model : RobotModel) (N i : Nat) (state : ρ)
    (st : SubTrajectory) : Except String (ExecutableTrajectory ρ) :=
  (resolveGroup model (jointNamesOf st)).map (fun group =>
    { description := segmentDescription i N
      trajectoryMsg := st.trajectory
      seedState := state
      group := group
      controller_names := st.controller_names
      effectDiff := st.scene_diff
      effectSubId := i
      effectSubNo := N })

/-- The tail of `constructMotionPlan`'s loop: when the sub-trajectory's scene
diff carries a non-empty robot state, apply it to the running state through the
collaborator `robotStateMsgToRobotState` (`applyDiff`); a failed application is
a fatal build error naming the segment. -/
def advanceState {ρ : Type} (applyDiff : ρ → RobotStateMsg → Option ρ) (state : ρ)
    (st : SubTrajectory) (description : String) : Except String ρ :=
  if isEmptyRobotState st.scene_diff.robot_state then Except.ok state
  else
    match applyDiff state st.scene_diff.robot_state with
    | none => Except.error (invalidStateError description)
    | some state2 => Except.ok state2

/-- The loop of `constructMotionPlan` over the remaining sub-trajectories:
`i` is the index of the next segment, `state` the running robot state, and `N`
the total number of sub-trajectories. The first failing segment aborts the
whole build. -/
def constructMotionPlanAux {ρ : Type} (model : RobotModel)
    (applyDiff : ρ → RobotStateMsg → Option ρ) (N : Nat) :
    Nat → ρ → List SubTrajectory → Except String (List (ExecutableTrajectory ρ))
  | _, _, [] => Except.ok []
  | i, state, st :: rest =>
    match buildSegment model N i state st with
    | Except.error e => Except.error e
    | Except.ok et =>
      match advanceState applyDiff state st et.description with
      | Except.error e => Except.error e
      | Except.ok state2 =>
        match constructMotionPlanAux model applyDiff N (i + 1) state2 rest with
        | Except.error e => Except.error e
        | Except.ok plan => Except.ok (et :: plan)

/-- `ExecuteTaskSolutionCapability::constructMotionPlan`: build one executable
segment per sub-trajectory, starting from the locked snapshot `initState` of
the current robot state; any failure invalidates the whole plan. -/
def constructMotionPlan {ρ : Type} (model : RobotModel)
    (applyDiff : ρ → RobotStateMsg → Option ρ) (initState : ρ)
    (solution : List SubTrajectory) : Except String (List (ExecutableTrajectory ρ)) :=
  constructMotionPlanAux model applyDiff solution.length 0 initState solution

/-- The joint-state stripping done by each completion effect before emptiness
is evaluated: reset `joint_state` and `multi_dof_joint_state` to
default-constructed messages and mark the diff as a partial (`is_diff`) update. -/
def stripDiff (d : PlanningSceneMsg) : PlanningSceneMsg :=
  { d with robot_state :=
      { d.robot_state with
          joint_state := JointStateMsg.empty
          multi_dof_joint_state := MultiDOFJointStateMsg.empty
          is_diff := true } }

/-- Terminal states of the action goal. -/
inductive TerminalStatus where
  | succeeded
  | preempted
  | aborted
deriving DecidableEq

/-- Observable events of one goal, in order: the plan handed to the execution
engine, a published feedback message, a planning-scene submission from a
completion effect, and the single terminal result. -/
inductive Event where
  | planSubmitted (numSegments : Nat)
  | feedback (sub_id : Nat) (sub_no : Nat)
  | sceneUpdate (diff : PlanningSceneMsg)
  | terminal (status : TerminalStatus) (code : Int) (response : String)
deriving DecidableEq

/-- Whether an event is a feedback message. -/
def isFeedbackEvent : Event → Bool
  | Event.feedback _ _ => true
  | _ => false

/-- Whether an event is the terminal result. -/
def isTerminalEvent : Event → Bool
  | Event.terminal _ _ _ => true
  | _ => false

/-- The `effect_on_success_` closure of one segment: publish feedback
(`sub_id = i`, `sub_no = N`), strip the joint-state fields of the captured
scene diff, and submit the diff through `newPlanningSceneMessage` (`submit`)
only when it is still non-empty; an already-empty diff is trivially
successful. Returns the emitted events and the effect's success. -/
def runEffect {ρ : Type} (submit : PlanningSceneMsg → Bool)
    (et : ExecutableTrajectory ρ) : List Event × Bool :=
  let fb := Event.feedback et.effectSubId et.effectSubNo
  let d := stripDiff et.effectDiff
  if !(isEmptyScene d) then ([fb, Event.sceneUpdate d], submit d)
  else ([fb], true)

/-- Modelled from the spec: the execution engine
(`plan_execution_->executeAndMonitor`, outside this repository) executes the
plan's segments in order, invoking each segment's completion effect after that
segment individually succeeds, and yields one aggregate status code.
`executed` is the number of segments the engine completes and `status` the
aggregate code it reports; both are engine-defined. -/
def runEngine {ρ : Type} (submit : PlanningSceneMsg → Bool) (executed : Nat)
    (status : Int) (plan : List (ExecutableTrajectory ρ)) : List Event × Int :=
  (((plan.take executed).map (fun et => (runEffect submit et).fst)).flatten, status)

/-- The collaborators and engine behaviour one goal executes against:
the kinematic model, availability of the execution subsystem
(`context_->plan_execution_`), the `robotStateMsgToRobotState` application,
the locked current-state snapshot, `newPlanningSceneMessage`, and the engine's
behaviour parameters. -/
structure ExecEnv (ρ : Type) where
  model : RobotModel
  planExecutionAvailable : Bool
  applyDiff : ρ → RobotStateMsg → Option ρ
  initState : ρ
  submit : PlanningSceneMsg → Bool
  engineExecuted : Nat
  engineStatus : Int

/-- The terminal mapping of `execCallback`: `setSucceeded` exactly on
`SUCCESS`, `setPreempted` exactly on `PREEMPTED`, `setAborted` otherwise. -/
def terminalOf (code : Int) : TerminalStatus :=
  if code = MoveItErrorCodes.SUCCESS then TerminalStatus.succeeded
  else if code = MoveItErrorCodes.PREEMPTED then TerminalStatus.preempted
  else TerminalStatus.aborted

/-- `ExecuteTaskSolutionCapability::execCallback` as a trace of observable
events: reject the goal when execution is disabled; otherwise build the plan
(a failed build terminates with `INVALID_MOTION_PLAN` and nothing reaches the
engine); otherwise hand the plan to the engine, let it run the effects, and
end with the single terminal result mapped from the aggregate status. -/
def execCallbackTrace {ρ : Type} (env : ExecEnv ρ) (solution : List SubTrajectory) :
    List Event :=
  if env.planExecutionAvailable then
    match constructMotionPlan env.model env.applyDiff env.initState solution with
    | Except.error _ =>
      [Event.terminal (terminalOf MoveItErrorCodes.INVALID_MOTION_PLAN)
        MoveItErrorCodes.INVALID_MOTION_PLAN
        (errorCodeToString MoveItErrorCodes.INVALID_MOTION_PLAN)]
    | Except.ok plan =>
      let res := runEngine env.submit env.engineExecuted env.engineStatus plan
      Event.planSubmitted plan.length :: res.fst
        ++ [Event.terminal (terminalOf res.snd) res.snd (errorCodeToString res.snd)]
  else
    [Event.terminal TerminalStatus.aborted MoveItErrorCodes.CONTROL_FAILED disabledResponse]

/-- The resolver's acceptance condition written from the spec's words
(section 4.1): the group contains the required joints, and every extra joint
of the group is passive, fixed, or mimic-driven. -/
def matchesSpec (model : RobotModel) (required : List String) (g : JointModelGroup) : Prop :=
  (∀ j ∈ required, j ∈ g.jointNames) ∧
    (∀ j ∈ g.jointNames, j ∉ required →
      (model.jointInfo j).passive = true ∨ (model.jointInfo j).fixed = true ∨
        (model.jointInfo j).mimic = true)

/-- A planning-scene diff whose only content is joint-state fields: every
component other than `joint_state` and `multi_dof_joint_state` is empty. -/
def onlyJointStateContent (d : PlanningSceneMsg) : Bool :=
  d.name.isEmpty && d.fixed_frame_transforms.isEmpty
    && d.allowed_collision_matrix_entry_names.isEmpty
    && d.link_padding.isEmpty && d.link_scale.isEmpty && d.object_colors.isEmpty
    && d.robot_state.attached_collision_objects.isEmpty
    && d.world_collision_objects.isEmpty && d.world_octomap_data.isEmpty

/-! ## Concrete fixtures used by witnesses and counterexamples -/

/-- A scene diff with no content at all (`is_diff` already set). -/
def emptySceneDiff : PlanningSceneMsg :=
  { name := ""
    robot_state :=
      { joint_state := JointStateMsg.empty
        multi_dof_joint_state := MultiDOFJointStateMsg.empty
        attached_collision_objects := []
        is_diff := true }
    fixed_frame_transforms := []
    allowed_collision_matrix_entry_names := []
    link_padding := []
    link_scale := []
    object_colors := []
    world_collision_objects := []
    world_octomap_data := [] }

/-- A robot model with no registered groups. -/
def modelEmpty : RobotModel :=
  { groups := [], jointInfo := fun _ => ⟨false, false, false⟩ }

/-- A robot model with a single group over joint `a`, no tolerated joints. -/
def modelW : RobotModel :=
  { groups := [{ name := "g", jointNames := ["a"] }]
    jointInfo := fun _ => ⟨false, false, false⟩ }

/-- A robot model whose single group holds only a fixed joint, so it matches
even the empty joint set under the tolerance rule. -/
def modelAllFixed : RobotModel :=
  { groups := [{ name := "g0", jointNames := ["f1"] }]
    jointInfo := fun _ => ⟨false, false, true⟩ }

/-- A sub-trajectory over a joint `jx` unknown to every model used here. -/
def stX : SubTrajectory :=
  { trajectory := { joint_names := ["jx"], multi_dof_joint_names := [] }
    scene_diff := emptySceneDiff
    controller_names := [] }

/-- A sub-trajectory over joint `a` of `modelW`, with an empty scene diff. -/
def stA : SubTrajectory :=
  { trajectory := { joint_names := ["a"], multi_dof_joint_names := [] }
    scene_diff := emptySceneDiff
    controller_names := [] }

/-- A sub-trajectory that actuates no joints at all. -/
def stNoJoints : SubTrajectory :=
  { trajectory := { joint_names := [], multi_dof_joint_names := [] }
    scene_diff := emptySceneDiff
    controller_names := [] }

/-- An execution environment over `modelEmpty` with execution enabled. -/
def envX : ExecEnv Unit :=
  { model := modelEmpty
    planExecutionAvailable := true
    applyDiff := fun s _ => some s
    initState := ()
    submit := fun _ => true
    engineExecuted := 0
    engineStatus := MoveItErrorCodes.SUCCESS }

/-- An execution environment over `modelW` that runs one segment to success. -/
def envA : ExecEnv Unit :=
  { model := modelW
    planExecutionAvailable := true
    applyDiff := fun s _ => some s
    initState := ()
    submit := fun _ => true
    engineExecuted := 1
    engineStatus := MoveItErrorCodes.SUCCESS }

/-- An execution environment with trajectory execution disabled. -/
def envDisabled : ExecEnv Unit :=
  { model := modelEmpty
    planExecutionAvailable := false
    applyDiff := fun s _ => some s
    initState := ()
    submit := fun _ => true
    engineExecuted := 0
    engineStatus := MoveItErrorCodes.SUCCESS }

/-- A scene diff whose only content is joint-state fields. -/
def jsOnlyDiff : PlanningSceneMsg :=
  { emptySceneDiff with robot_state :=
      { joint_state := { name := ["j1"], position := [5] }
        multi_dof_joint_state := { joint_names := ["m1"] }
        attached_collision_objects := []
        is_diff := false } }

/-- An executable segment whose effect carries `jsOnlyDiff`. -/
def etJS : ExecutableTrajectory Unit :=
  { description := segmentDescription 0 1
    trajectoryMsg := { joint_names := [], multi_dof_joint_names := [] }
    seedState := ()
    group := none
    controller_names := []
    effectDiff := jsOnlyDiff
    effectSubId := 0
    effectSubNo := 1 }

/-! ## Helper lemmas -/

/-- The source's boolean per-group test agrees with the spec's acceptance
condition for a candidate group. -/
theorem groupMatches_iff (model : RobotModel) (joints : List String) (g : JointModelGroup) :
    groupMatches model joints g = true ↔ matchesSpec model joints g := by
  simp only [groupMatches, Bool.and_eq_true, List.all_eq_true, List.mem_filter,
    decide_eq_true_eq, Bool.not_eq_true', decide_eq_false_iff_not]
  unfold matchesSpec
  constructor
  · rintro ⟨h1, h2⟩
    refine ⟨h1, fun j hj hnj => ?_⟩
    have h := h2 j ⟨hj, hnj⟩
    simp only [acceptableJoint, Bool.or_eq_true] at h
    tauto
  · rintro ⟨h1, h2⟩
    refine ⟨h1, fun j hj => ?_⟩
    have h := h2 j hj.1 hj.2
    simp only [acceptableJoint, Bool.or_eq_true]
    tauto

/-! ## Claim theorems -/

/-- C2: for every non-empty input joint-name set and every registered-group
list, the resolver returns the first group in model-registration order that
contains the input set and whose extra joints are each passive, fixed, or
mimic-driven; if no registered group satisfies this it returns `none`; the
tie-break among multiple matching groups is registration order. -/
theorem findJointModelGroup_first_match (model : RobotModel) (joints : List String)
    (_hne : joints ≠ []) :
    (∀ g, findJointModelGroup model joints = some g ↔
      ∃ pre post, model.groups = pre ++ g :: post ∧ matchesSpec model joints g ∧
        ∀ g2 ∈ pre, ¬ matchesSpec model joints g2)
    ∧ (findJointModelGroup model joints = none ↔
        ∀ g ∈ model.groups, ¬ matchesSpec model joints g) := by
  constructor
  · intro g
    rw [findJointModelGroup, List.find?_eq_some]
    constructor
    · rintro ⟨hp, pre, post, heq, hall⟩
      refine ⟨pre, post, heq, (groupMatches_iff model joints g).mp hp, fun g2 hg2 hm => ?_⟩
      have htrue : groupMatches model joints g2 = true :=
        (groupMatches_iff model joints g2).mpr hm
      have hfalse := hall g2 hg2
      simp [htrue] at hfalse
    · rintro ⟨pre, post, heq, hm, hpre⟩
      refine ⟨(groupMatches_iff model joints g).mpr hm, pre, post, heq, fun g2 hg2 => ?_⟩
      cases hgm : groupMatches model joints g2 with
      | false => simp
      | true => exact absurd ((groupMatches_iff model joints g2).mp hgm) (hpre g2 hg2)
  · rw [findJointModelGroup, List.find?_eq_none]
    constructor
    · intro h g hg hm
      exact h g hg ((groupMatches_iff model joints g).mpr hm)
    · intro h g hg hgm
      exact h g hg ((groupMatches_iff model joints g).mp hgm)

/-- Witness for C2 at a concrete model and joint set. -/
theorem findJointModelGroup_first_match_witness :
    findJointModelGroup modelW ["a"] = none ↔
      ∀ g ∈ modelW.groups, ¬ matchesSpec modelW ["a"] g :=
  (findJointModelGroup_first_match modelW ["a"] (by decide)).2

/-- C7: a sub-trajectory whose union of single-DOF and multi-DOF joint names
is empty is built unconstrained (bound to no group), and the built segment
does not depend on the kinematic model at all, so the resolver is never
consulted. -/
theorem buildSegment_empty_joints_unconstrained {ρ : Type} (model model2 : RobotModel)
    (N i : Nat) (s : ρ) (st : SubTrajectory) (h : jointNamesOf st = []) :
    (∃ et, buildSegment model N i s st = Except.ok et ∧ et.group = none)
    ∧ buildSegment model N i s st = buildSegment model2 N i s st := by
  have hres : ∀ m : RobotModel, resolveGroup m (jointNamesOf st) = Except.ok none := by
    intro m
    rw [resolveGroup, h]
    rfl
  constructor
  · rw [buildSegment, hres model]
    exact ⟨_, rfl, rfl⟩
  · rw [buildSegment, buildSegment, hres model, hres model2]

/-- Witness for C7: a joint-free segment stays unconstrained even against a
model whose sole group would match the empty joint set under the tolerance
rule. -/
theorem buildSegment_empty_joints_unconstrained_witness :
    (∃ et, buildSegment modelAllFixed 1 0 () stNoJoints = Except.ok et ∧ et.group = none)
    ∧ buildSegment modelAllFixed 1 0 () stNoJoints = buildSegment modelEmpty 1 0 () stNoJoints :=
  buildSegment_empty_joints_unconstrained modelAllFixed modelEmpty 1 0 () stNoJoints rfl

/-- A failed resolution on a non-empty joint-name union makes `buildSegment`
fail with the message naming the joints. -/
theorem buildSegment_unresolvable_error {ρ : Type} (model : RobotModel) (N i : Nat) (s : ρ)
    (st : SubTrajectory) (h1 : jointNamesOf st ≠ [])
    (h2 : findJointModelGroup model (jointNamesOf st) = none) :
    buildSegment model N i s st =
      Except.error (unresolvableGroupError (jointNamesOf st)) := by
  have hie : (jointNamesOf st).isEmpty = false := by
    cases hjn : jointNamesOf st with
    | nil => exact absurd hjn h1
    | cons a l => rfl
  rw [buildSegment, resolveGroup, hie, h2]
  rfl

/-- C8: when actuator-group resolution fails for a sub-trajectory with a
non-empty joint-name union, the fatal build error names the unmet joints,
joined by commas into a human-readable list. -/
theorem buildSegment_names_unmet_joints {ρ : Type} (model : RobotModel) (N i : Nat) (s : ρ)
    (st : SubTrajectory) (h1 : jointNamesOf st ≠ [])
    (h2 : findJointModelGroup model (jointNamesOf st) = none) :
    buildSegment model N i s st =
      Except.error ("Could not find JointModelGroup that actuates \x7b"
        ++ String.intercalate ", " (jointNamesOf st) ++ "\x7d") :=
  buildSegment_unresolvable_error model N i s st h1 h2

/-- Witness for C8 at a concrete model and sub-trajectory. -/
theorem buildSegment_names_unmet_joints_witness :
    buildSegment modelEmpty 1 0 () stX =
      Except.error ("Could not find JointModelGroup that actuates \x7b"
        ++ String.intercalate ", " (jointNamesOf stX) ++ "\x7d") :=
  buildSegment_names_unmet_joints modelEmpty 1 0 () stX (by decide) rfl

/-- Fields of a segment successfully produced by `buildSegment`. -/
theorem buildSegment_ok_fields {ρ : Type} (model : RobotModel) (N i : Nat) (s : ρ)
    (st : SubTrajectory) (et : ExecutableTrajectory ρ)
    (h : buildSegment model N i s st = Except.ok et) :
    et.effectSubId = i ∧ et.effectSubNo = N ∧ et.effectDiff = st.scene_diff
      ∧ et.description = segmentDescription i N := by
  rw [buildSegment] at h
  cases hG : resolveGroup model (jointNamesOf st) with
  | error e => rw [hG] at h; exact absurd h (by simp [Except.map])
  | ok g =>
    rw [hG] at h
    simp only [Except.map, Except.ok.injEq] at h
    rw [← h]
    exact ⟨rfl, rfl, rfl, rfl⟩

/-- A resolution failure on any member of the remaining solution makes the
build loop fail, wherever the member sits. -/
theorem constructMotionPlanAux_error_of_unresolvable {ρ : Type} (model : RobotModel)
    (applyDiff : ρ → RobotStateMsg → Option ρ) (N : Nat) :
    ∀ (rest : List SubTrajectory) (i : Nat) (s : ρ) (st : SubTrajectory),
      st ∈ rest → jointNamesOf st ≠ [] →
      findJointModelGroup model (jointNamesOf st) = none →
      ∃ e, constructMotionPlanAux model applyDiff N i s rest = Except.error e := by
  intro rest
  induction rest with
  | nil => intro i s st hmem; exact absurd hmem (List.not_mem_nil st)
  | cons hd tl ih =>
    intro i s st hmem hne hfind
    rcases List.mem_cons.mp hmem with heq | hmem2
    · have hne2 : jointNamesOf hd ≠ [] := by rw [← heq]; exact hne
      have hfind2 : findJointModelGroup model (jointNamesOf hd) = none := by
        rw [← heq]; exact hfind
      refine ⟨unresolvableGroupError (jointNamesOf hd), ?_⟩
      rw [constructMotionPlanAux, buildSegment_unresolvable_error model N i s hd hne2 hfind2]
    · cases hbs : buildSegment model N i s hd with
      | error e => exact ⟨e, by simp [constructMotionPlanAux, hbs]⟩
      | ok et =>
        cases hadv : advanceState applyDiff s hd et.description with
        | error e => exact ⟨e, by simp [constructMotionPlanAux, hbs, hadv]⟩
        | ok s2 =>
          obtain ⟨e, he⟩ := ih (i + 1) s2 st hmem2 hne hfind
          exact ⟨e, by simp [constructMotionPlanAux, hbs, hadv, he]⟩

/-- C1: the plan build is all-or-nothing. A sub-trajectory that fails
actuator-group resolution makes `constructMotionPlan` fail; a non-empty
robot-state scene diff that fails to apply to the running state makes the
build loop fail at that segment; and whenever the build fails, the goal's
whole trace is the single Aborted terminal with the invalid-plan code, so no
plan is handed to the engine and zero segments execute. -/
theorem constructMotionPlan_all_or_nothing {ρ : Type} (env : ExecEnv ρ)
    (solution : List SubTrajectory) :
    ((∃ st ∈ solution, jointNamesOf st ≠ [] ∧
        findJointModelGroup env.model (jointNamesOf st) = none) →
      ∃ e, constructMotionPlan env.model env.applyDiff env.initState solution
        = Except.error e)
    ∧ (∀ (N i : Nat) (s : ρ) (st : SubTrajectory) (rest : List SubTrajectory),
        isEmptyRobotState st.scene_diff.robot_state = false →
        env.applyDiff s st.scene_diff.robot_state = none →
        ∃ e, constructMotionPlanAux env.model env.applyDiff N i s (st :: rest)
          = Except.error e)
    ∧ (∀ e, constructMotionPlan env.model env.applyDiff env.initState solution
          = Except.error e →
        env.planExecutionAvailable = true →
        execCallbackTrace env solution =
          [Event.terminal TerminalStatus.aborted MoveItErrorCodes.INVALID_MOTION_PLAN
            (errorCodeToString MoveItErrorCodes.INVALID_MOTION_PLAN)]) := by
  refine ⟨?_, ?_, ?_⟩
  · rintro ⟨st, hmem, hne, hfind⟩
    exact constructMotionPlanAux_error_of_unresolvable env.model env.applyDiff
      solution.length solution 0 env.initState st hmem hne hfind
  · intro N i s st rest hdiff happly
    cases hbs : buildSegment env.model N i s st with
    | error e => exact ⟨e, by simp [constructMotionPlanAux, hbs]⟩
    | ok et =>
      have hadv : advanceState env.applyDiff s st et.description
          = Except.error (invalidStateError et.description) := by
        rw [advanceState, hdiff, happly]
        rfl
      exact ⟨invalidStateError et.description, by simp [constructMotionPlanAux, hbs, hadv]⟩
  · intro e herr hav
    have hmap : terminalOf MoveItErrorCodes.INVALID_MOTION_PLAN = TerminalStatus.aborted := by
      decide
    rw [execCallbackTrace, hav, if_pos rfl, herr, hmap]

/-- Witness for C1: a one-segment solution over an unknown joint fails to
build against the empty model. -/
theorem constructMotionPlan_all_or_nothing_witness :
    ∃ e, constructMotionPlan envX.model envX.applyDiff envX.initState [stX]
      = Except.error e :=
  (constructMotionPlan_all_or_nothing envX [stX]).1
    ⟨stX, by simp, by decide, rfl⟩

/-- C6: with the execution subsystem unavailable, every goal terminates
immediately in Aborted with the `CONTROL_FAILED` code and the descriptive
disabled-execution message, independently of the goal's content, so the plan
builder is never invoked. -/
theorem execCallback_disabled {ρ : Type} (env : ExecEnv ρ) (solution : List SubTrajectory)
    (h : env.planExecutionAvailable = false) :
    execCallbackTrace env solution =
        [Event.terminal TerminalStatus.aborted MoveItErrorCodes.CONTROL_FAILED
          disabledResponse]
    ∧ (∀ solution2, execCallbackTrace env solution = execCallbackTrace env solution2)
    ∧ disabledResponse ≠ "" := by
  have htr : ∀ sol : List SubTrajectory, execCallbackTrace env sol =
      [Event.terminal TerminalStatus.aborted MoveItErrorCodes.CONTROL_FAILED
        disabledResponse] := by
    intro sol
    rw [execCallbackTrace, h]
    rfl
  exact ⟨htr solution, fun solution2 => (htr solution).trans (htr solution2).symm, by decide⟩

/-- Witness for C6 at a concrete environment and goal. -/
theorem execCallback_disabled_witness :
    execCallbackTrace envDisabled [stA] =
        [Event.terminal TerminalStatus.aborted MoveItErrorCodes.CONTROL_FAILED
          disabledResponse]
    ∧ (∀ solution2, execCallbackTrace envDisabled [stA] = execCallbackTrace envDisabled solution2)
    ∧ disabledResponse ≠ "" :=
  execCallback_disabled envDisabled [stA] rfl

/-- C10: an empty solution builds successfully into an empty executable plan,
the trace hands the empty plan to the engine, emits no feedback, and ends
with whatever terminal the engine's aggregate status maps to. -/
theorem constructMotionPlan_empty_solution {ρ : Type} (env : ExecEnv ρ)
    (h : env.planExecutionAvailable = true) :
    constructMotionPlan env.model env.applyDiff env.initState [] = Except.ok []
    ∧ execCallbackTrace env [] =
        [Event.planSubmitted 0,
         Event.terminal (terminalOf env.engineStatus) env.engineStatus
           (errorCodeToString env.engineStatus)]
    ∧ (execCallbackTrace env []).filter isFeedbackEvent = [] := by
  have hok : constructMotionPlan env.model env.applyDiff env.initState [] = Except.ok [] := rfl
  have htr : execCallbackTrace env [] =
      [Event.planSubmitted 0,
       Event.terminal (terminalOf env.engineStatus) env.engineStatus
         (errorCodeToString env.engineStatus)] := by
    rw [execCallbackTrace, h, if_pos rfl, hok]
    simp [runEngine]
  refine ⟨hok, htr, ?_⟩
  rw [htr]
  rfl

/-- Witness for C10 at a concrete environment. -/
theorem constructMotionPlan_empty_solution_witness :
    constructMotionPlan envX.model envX.applyDiff envX.initState [] = Except.ok []
    ∧ execCallbackTrace envX [] =
        [Event.planSubmitted 0,
         Event.terminal (terminalOf envX.engineStatus) envX.engineStatus
           (errorCodeToString envX.engineStatus)]
    ∧ (execCallbackTrace envX []).filter isFeedbackEvent = [] :=
  constructMotionPlan_empty_solution envX rfl

/-- The error-code rendering is never the empty string. -/
theorem errorCodeToString_ne_empty (c : Int) : errorCodeToString c ≠ "" := by
  unfold errorCodeToString
  repeat' split
  all_goals decide

/-- A completion effect emits either only its feedback message, or its
feedback message followed by the submission of the stripped diff. -/
theorem runEffect_events_shape {ρ : Type} (submit : PlanningSceneMsg → Bool)
    (et : ExecutableTrajectory ρ) :
    (runEffect submit et).fst = [Event.feedback et.effectSubId et.effectSubNo]
    ∨ (runEffect submit et).fst =
        [Event.feedback et.effectSubId et.effectSubNo,
         Event.sceneUpdate (stripDiff et.effectDiff)] := by
  rw [runEffect]
  split
  · exact Or.inr rfl
  · exact Or.inl rfl

/-- Completion effects never emit a terminal event. -/
theorem runEffect_no_terminal {ρ : Type} (submit : PlanningSceneMsg → Bool)
    (et : ExecutableTrajectory ρ) :
    ∀ e ∈ (runEffect submit et).fst, isTerminalEvent e = false := by
  intro e he
  rcases runEffect_events_shape submit et with h | h
  · rw [h] at he
    simp only [List.mem_singleton] at he
    subst he
    rfl
  · rw [h] at he
    simp only [List.mem_cons, List.mem_singleton, List.not_mem_nil, or_false] at he
    rcases he with he | he <;> (subst he; rfl)

/-- The feedback messages of one completion effect: exactly its own. -/
theorem runEffect_filter_feedback {ρ : Type} (submit : PlanningSceneMsg → Bool)
    (et : ExecutableTrajectory ρ) :
    ((runEffect submit et).fst).filter isFeedbackEvent
      = [Event.feedback et.effectSubId et.effectSubNo] := by
  rcases runEffect_events_shape submit et with h | h <;> rw [h] <;> rfl

/-- The engine's event stream contains no terminal event. -/
theorem runEngine_no_terminal {ρ : Type} (submit : PlanningSceneMsg → Bool)
    (k : Nat) (status : Int) (plan : List (ExecutableTrajectory ρ)) :
    ∀ e ∈ (runEngine submit k status plan).fst, isTerminalEvent e = false := by
  intro e he
  rw [runEngine] at he
  simp only [List.mem_flatten, List.mem_map] at he
  obtain ⟨l, ⟨et, _, rfl⟩, hel⟩ := he
  exact runEffect_no_terminal submit et e hel


/-- The full trace of a goal whose plan builds successfully. -/
theorem execCallbackTrace_ok {ρ : Type} (env : ExecEnv ρ) (solution : List SubTrajectory)
    (plan : List (ExecutableTrajectory ρ)) (hav : env.planExecutionAvailable = true)
    (hok : constructMotionPlan env.model env.applyDiff env.initState solution
      = Except.ok plan) :
    execCallbackTrace env solution =
      Event.planSubmitted plan.length
        :: (runEngine env.submit env.engineExecuted env.engineStatus plan).fst
        ++ [Event.terminal (terminalOf env.engineStatus) env.engineStatus
              (errorCodeToString env.engineStatus)] := by
  rw [execCallbackTrace, hav, if_pos rfl, hok]
  rfl

/-- C3: whenever the plan builds, the trace hands it to the engine and closes
with one terminal whose code is the engine's aggregate status; the terminal
kind is Succeeded exactly on the success code, Preempted exactly on the
preemption code, Aborted on every other code; and every terminal event of any
trace carries a non-empty human-readable description. -/
theorem execCallback_terminal_mapping {ρ : Type} (env : ExecEnv ρ)
    (solution : List SubTrajectory) :
    (∀ plan, env.planExecutionAvailable = true →
      constructMotionPlan env.model env.applyDiff env.initState solution = Except.ok plan →
      execCallbackTrace env solution =
        Event.planSubmitted plan.length
          :: (runEngine env.submit env.engineExecuted env.engineStatus plan).fst
          ++ [Event.terminal (terminalOf env.engineStatus) env.engineStatus
                (errorCodeToString env.engineStatus)])
    ∧ (∀ c : Int,
        (terminalOf c = TerminalStatus.succeeded ↔ c = MoveItErrorCodes.SUCCESS)
        ∧ (terminalOf c = TerminalStatus.preempted ↔ c = MoveItErrorCodes.PREEMPTED)
        ∧ (terminalOf c = TerminalStatus.aborted ↔
            (c ≠ MoveItErrorCodes.SUCCESS ∧ c ≠ MoveItErrorCodes.PREEMPTED)))
    ∧ (∀ ts c r, Event.terminal ts c r ∈ execCallbackTrace env solution → r ≠ "") := by
  refine ⟨?_, ?_, ?_⟩
  · intro plan hav hok
    exact execCallbackTrace_ok env solution plan hav hok
  · intro c
    by_cases h1 : c = MoveItErrorCodes.SUCCESS
    · rw [h1]
      decide
    · by_cases h2 : c = MoveItErrorCodes.PREEMPTED
      · rw [h2]
        decide
      · have ht : terminalOf c = TerminalStatus.aborted := by
          rw [terminalOf, if_neg h1, if_neg h2]
        refine ⟨?_, ?_, ?_⟩ <;> simp [ht, h1, h2]
  · intro ts c r hmem
    cases hb : env.planExecutionAvailable with
    | false =>
      rw [execCallbackTrace, hb] at hmem
      simp only [Bool.false_eq_true, if_false, List.mem_singleton,
        Event.terminal.injEq] at hmem
      rw [hmem.2.2]
      decide
    | true =>
      cases hbd : constructMotionPlan env.model env.applyDiff env.initState solution with
      | error e =>
        rw [execCallbackTrace, hb, if_pos rfl, hbd] at hmem
        simp only [List.mem_singleton, Event.terminal.injEq] at hmem
        rw [hmem.2.2]
        exact errorCodeToString_ne_empty _
      | ok plan =>
        rw [execCallbackTrace_ok env solution plan hb hbd] at hmem
        rcases List.mem_cons.mp hmem with heq | hmem2
        · exact absurd heq (by simp)
        · rcases List.mem_append.mp hmem2 with hm | hm
          · have hfalse :=
              runEngine_no_terminal env.submit env.engineExecuted env.engineStatus plan _ hm
            simp [isTerminalEvent] at hfalse
          · simp only [List.mem_singleton, Event.terminal.injEq] at hm
            rw [hm.2.2]
            exact errorCodeToString_ne_empty _

/-- Witness for C3 at a concrete environment and goal. -/
theorem execCallback_terminal_mapping_witness :
    execCallbackTrace envX [] =
      Event.planSubmitted (([] : List (ExecutableTrajectory Unit)).length)
        :: (runEngine envX.submit envX.engineExecuted envX.engineStatus
              ([] : List (ExecutableTrajectory Unit))).fst
        ++ [Event.terminal (terminalOf envX.engineStatus) envX.engineStatus
              (errorCodeToString envX.engineStatus)] :=
  (execCallback_terminal_mapping envX []).1 [] rfl rfl

/-- C9: every goal's trace ends with exactly one terminal transition, and no
feedback (indeed no event at all, terminal included) follows it: everything
before the final event is non-terminal. -/
theorem execCallback_single_terminal {ρ : Type} (env : ExecEnv ρ)
    (solution : List SubTrajectory) :
    ∃ es ts c r, execCallbackTrace env solution = es ++ [Event.terminal ts c r]
      ∧ ∀ e ∈ es, isTerminalEvent e = false := by
  cases hb : env.planExecutionAvailable with
  | false =>
    refine ⟨[], TerminalStatus.aborted, MoveItErrorCodes.CONTROL_FAILED,
      disabledResponse, ?_, by simp⟩
    rw [execCallbackTrace, hb]
    rfl
  | true =>
    cases hbd : constructMotionPlan env.model env.applyDiff env.initState solution with
    | error e =>
      refine ⟨[], terminalOf MoveItErrorCodes.INVALID_MOTION_PLAN,
        MoveItErrorCodes.INVALID_MOTION_PLAN,
        errorCodeToString MoveItErrorCodes.INVALID_MOTION_PLAN, ?_, by simp⟩
      rw [execCallbackTrace, hb, if_pos rfl, hbd]
      rfl
    | ok plan =>
      refine ⟨Event.planSubmitted plan.length
          :: (runEngine env.submit env.engineExecuted env.engineStatus plan).fst,
        terminalOf env.engineStatus, env.engineStatus,
        errorCodeToString env.engineStatus, ?_, ?_⟩
      · exact execCallbackTrace_ok env solution plan hb hbd
      · intro e he
        rcases List.mem_cons.mp he with heq | he2
        · subst heq
          rfl
        · exact runEngine_no_terminal env.submit env.engineExecuted env.engineStatus plan e he2

/-- Witness for C9 at a concrete environment and goal. -/
theorem execCallback_single_terminal_witness :
    ∃ es ts c r, execCallbackTrace envA [stA] = es ++ [Event.terminal ts c r]
      ∧ ∀ e ∈ es, isTerminalEvent e = false :=
  execCallback_single_terminal envA [stA]

/-- Stripping the joint-state fields of a diff whose only content is
joint-state fields leaves an empty scene. -/
theorem isEmptyScene_stripDiff_of_onlyJointState (d : PlanningSceneMsg)
    (h : onlyJointStateContent d = true) : isEmptyScene (stripDiff d) = true := by
  cases d with
  | mk nm rs ffts acm lp ls oc wco wod =>
    cases rs with
    | mk js mdjs aco idf =>
      simp only [onlyJointStateContent, Bool.and_eq_true] at h
      simp only [isEmptyScene, stripDiff, isEmptyRobotState, JointStateMsg.empty,
        MultiDOFJointStateMsg.empty, Bool.and_eq_true]
      tauto

/-- C4: each completion effect clears the diff's joint-state and
multi-DOF-joint-state fields before emptiness is evaluated, so a diff whose
only content is joint-state fields is treated as empty, triggers no
scene-update submission and the effect succeeds; a diff still non-empty after
stripping is submitted and the effect returns the submission's result. -/
theorem runEffect_strip_and_submit {ρ : Type} (submit : PlanningSceneMsg → Bool)
    (et : ExecutableTrajectory ρ) :
    (onlyJointStateContent et.effectDiff = true →
      runEffect submit et = ([Event.feedback et.effectSubId et.effectSubNo], true))
    ∧ (isEmptyScene (stripDiff et.effectDiff) = true →
      runEffect submit et = ([Event.feedback et.effectSubId et.effectSubNo], true))
    ∧ (isEmptyScene (stripDiff et.effectDiff) = false →
      runEffect submit et =
        ([Event.feedback et.effectSubId et.effectSubNo,
          Event.sceneUpdate (stripDiff et.effectDiff)],
         submit (stripDiff et.effectDiff))) := by
  have hempty : isEmptyScene (stripDiff et.effectDiff) = true →
      runEffect submit et = ([Event.feedback et.effectSubId et.effectSubNo], true) := by
    intro h
    rw [runEffect]
    simp [h]
  refine ⟨fun h => hempty (isEmptyScene_stripDiff_of_onlyJointState _ h), hempty, ?_⟩
  intro h
  rw [runEffect]
  simp [h]

/-- Witness for C4: an effect whose diff holds only joint-state content emits
its feedback, submits nothing (the submitter would answer `false`), and still
succeeds. -/
theorem runEffect_strip_and_submit_witness :
    runEffect (fun _ => false) etJS = ([Event.feedback 0 1], true) :=
  (runEffect_strip_and_submit (fun _ => false) etJS).1 (by decide)

/-- The feedback data captured by the segments of a successfully built plan:
segment `k` of the result carries `sub_id = i + k` and `sub_no = N`. -/
theorem constructMotionPlanAux_ok_feedback {ρ : Type} (model : RobotModel)
    (applyDiff : ρ → RobotStateMsg → Option ρ) (N : Nat) :
    ∀ (rest : List SubTrajectory) (i : Nat) (s : ρ) (plan : List (ExecutableTrajectory ρ)),
      constructMotionPlanAux model applyDiff N i s rest = Except.ok plan →
      plan.map (fun et => Event.feedback et.effectSubId et.effectSubNo)
        = (List.range' i rest.length).map (fun k => Event.feedback k N) := by
  intro rest
  induction rest with
  | nil =>
    intro i s plan h
    rw [constructMotionPlanAux] at h
    injection h with h2
    rw [← h2]
    rfl
  | cons hd tl ih =>
    intro i s plan h
    cases hbs : buildSegment model N i s hd with
    | error e =>
      simp only [constructMotionPlanAux, hbs] at h
      exact absurd h (by simp)
    | ok et =>
      cases hadv : advanceState applyDiff s hd et.description with
      | error e =>
        simp only [constructMotionPlanAux, hbs, hadv] at h
        exact absurd h (by simp)
      | ok s2 =>
        cases hrec : constructMotionPlanAux model applyDiff N (i + 1) s2 tl with
        | error e =>
          simp only [constructMotionPlanAux, hbs, hadv, hrec] at h
          exact absurd h (by simp)
        | ok plan2 =>
          simp only [constructMotionPlanAux, hbs, hadv, hrec, Except.ok.injEq] at h
          rw [← h]
          obtain ⟨hid, hno, _, _⟩ := buildSegment_ok_fields model N i s hd et hbs
          rw [List.length_cons, List.range'_succ, List.map_cons, List.map_cons,
            hid, hno, ih (i + 1) s2 plan2 hrec]

/-- Feedback data of a whole successfully built plan: segment `k` carries
`sub_id = k` and `sub_no = solution.length`. -/
theorem constructMotionPlan_ok_feedback {ρ : Type} (model : RobotModel)
    (applyDiff : ρ → RobotStateMsg → Option ρ) (initState : ρ)
    (solution : List SubTrajectory) (plan : List (ExecutableTrajectory ρ))
    (h : constructMotionPlan model applyDiff initState solution = Except.ok plan) :
    plan.map (fun et => Event.feedback et.effectSubId et.effectSubNo)
      = (List.range solution.length).map (fun k => Event.feedback k solution.length) := by
  rw [List.range_eq_range']
  exact constructMotionPlanAux_ok_feedback model applyDiff solution.length solution 0
    initState plan h

/-- A successfully built plan has one segment per sub-trajectory. -/
theorem constructMotionPlan_ok_length {ρ : Type} (model : RobotModel)
    (applyDiff : ρ → RobotStateMsg → Option ρ) (initState : ρ)
    (solution : List SubTrajectory) (plan : List (ExecutableTrajectory ρ))
    (h : constructMotionPlan model applyDiff initState solution = Except.ok plan) :
    plan.length = solution.length := by
  have hmap := congrArg List.length
    (constructMotionPlan_ok_feedback model applyDiff initState solution plan h)
  simpa using hmap

/-- Flattening a list of singletons is a map. -/
theorem flatten_map_singleton {α β : Type} (l : List α) (f : α → β) :
    (l.map (fun x => [f x])).flatten = l.map f := by
  induction l with
  | nil => rfl
  | cons a t ih => simp [ih]

/-- C5 counterexample: for a successfully executed one-segment solution, the
emitted feedback carries `sub_id = 0` (the loop's 0-based index), not `1` as
the 1-based reading of the claim requires. -/
theorem feedback_index_counterexample :
    (execCallbackTrace envA [stA]).filter isFeedbackEvent = [Event.feedback 0 1]
    ∧ (execCallbackTrace envA [stA]).filter isFeedbackEvent ≠ [Event.feedback 1 1] := by
  have h : (execCallbackTrace envA [stA]).filter isFeedbackEvent = [Event.feedback 0 1] := rfl
  refine ⟨h, ?_⟩
  rw [h]
  decide

/-- C5 (amended): for a solution of N sub-trajectories that all execute
successfully, exactly one feedback message is emitted per completed segment,
in segment order, before the terminal result, and the i-th feedback (1-based)
carries the 0-based segment index i-1 and total count N. -/
theorem feedback_per_segment_zero_based {ρ : Type} (env : ExecEnv ρ)
    (solution : List SubTrajectory) (plan : List (ExecutableTrajectory ρ))
    (hav : env.planExecutionAvailable = true)
    (hok : constructMotionPlan env.model env.applyDiff env.initState solution
      = Except.ok plan)
    (hexec : env.engineExecuted = solution.length)
    (hst : env.engineStatus = MoveItErrorCodes.SUCCESS) :
    ∃ es, execCallbackTrace env solution
        = es ++ [Event.terminal TerminalStatus.succeeded MoveItErrorCodes.SUCCESS
                  (errorCodeToString MoveItErrorCodes.SUCCESS)]
      ∧ es.filter isFeedbackEvent
          = (List.range solution.length).map (fun k => Event.feedback k solution.length) := by
  have hlen : plan.length = solution.length :=
    constructMotionPlan_ok_length env.model env.applyDiff env.initState solution plan hok
  refine ⟨Event.planSubmitted plan.length
      :: (runEngine env.submit env.engineExecuted env.engineStatus plan).fst, ?_, ?_⟩
  · have htr := execCallbackTrace_ok env solution plan hav hok
    rw [htr, hst]
    rfl
  · have htake : plan.take env.engineExecuted = plan := by
      rw [hexec, ← hlen, List.take_length]
    rw [runEngine, htake]
    rw [List.filter_cons]
    simp only [isFeedbackEvent, if_false, Bool.false_eq_true]
    rw [List.filter_flatten, List.map_map]
    have hmapeq :
        plan.map (List.filter isFeedbackEvent ∘ fun et => (runEffect env.submit et).fst)
          = plan.map (fun et => [Event.feedback et.effectSubId et.effectSubNo]) :=
      List.map_congr_left (fun et _ => runEffect_filter_feedback env.submit et)
    rw [hmapeq, flatten_map_singleton]
    exact constructMotionPlan_ok_feedback env.model env.applyDiff env.initState solution
      plan hok

/-- The one-segment plan built from `stA` against `modelW`. -/
def planA : List (ExecutableTrajectory Unit) :=
  [{ description := segmentDescription 0 1
     trajectoryMsg := { joint_names := ["a"], multi_dof_joint_names := [] }
     seedState := ()
     group := some { name := "g", jointNames := ["a"] }
     controller_names := []
     effectDiff := emptySceneDiff
     effectSubId := 0
     effectSubNo := 1 }]

/-- Witness for the amended C5 at a concrete environment and goal. -/
theorem feedback_per_segment_zero_based_witness :
    ∃ es, execCallbackTrace envA [stA]
        = es ++ [Event.terminal TerminalStatus.succeeded MoveItErrorCodes.SUCCESS
                  (errorCodeToString MoveItErrorCodes.SUCCESS)]
      ∧ es.filter isFeedbackEvent = (List.range 1).map (fun k => Event.feedback k 1) :=
  feedback_per_segment_zero_based envA [stA] planA rfl rfl rfl rfl
